import Mathlib

/-!
Shallow embedding of the WasteWise authentication and authorization core:
the auth routes (register / login / enable-2fa / disable-2fa), the
`TwoFactorAuth` mongoose model, the `requirePermission` / `requireRole`
middleware, and the user-management routes (role update, delete).

Machine conventions: timestamps are milliseconds as `Nat` (JS `Date.now()`),
document ids are `Nat`, the password hash check (bcrypt, external) is an
abstract boolean function passed as a parameter, and the document stores are
association lists in insertion order (mongoose `findOne` without a sort
returns the first document in natural order).
-/

namespace WasteWise

/-- The three account roles (`User` model enum / `validRoles` in the routes). -/
inductive Role where
  | user
  | manager
  | admin
deriving DecidableEq, Repr

/-- The `type` enum of the `TwoFactorAuth` schema:
`['login', 'enable_2fa', 'disable_2fa']`. -/
inductive CodeType where
  | login
  | enable2fa
  | disable2fa
deriving DecidableEq, Repr

/-- An account document (`User` model): fields used by the auth core.
`password` holds the salted hash, never the clear text. -/
structure User where
  id : Nat
  name : String
  email : String
  password : String
  role : Role
  permissions : List String
  twoFactorEnabled : Bool
  lastLogin : Option Nat
deriving DecidableEq, Repr

/-- A one-time-code document (`TwoFactorAuth` model, backend/models/TwoFactorAuth.js). -/
structure CodeRecord where
  user : Nat
  code : String
  expiresAt : Nat
  isUsed : Bool
  type : CodeType
deriving DecidableEq, Repr

/-- Node's `crypto.randomInt(min, max)`: a uniform draw in `[min, max)` —
the upper bound is EXCLUSIVE.  The draw is represented by an arbitrary
natural `r` reduced into the range. -/
def randomInt (mn mx r : Nat) : Nat :=
  mn + r % (mx - mn)

/-- Source `generateTwoFactorCode` (auth routes): `crypto.randomInt(100000, 999999)`.
The `.toString()` is applied at the call sites. -/
def generateTwoFactorCode (r : Nat) : Nat :=
  randomInt 100000 999999 r

/-- Source `TwoFactorAuth.create` with the schema defaults:
`expiresAt = Date.now() + 10 * 60 * 1000` and `isUsed = false`. -/
def createTwoFactorAuth (u : Nat) (c : String) (t : CodeType) (now : Nat) : CodeRecord :=
  { user := u, code := c, type := t, expiresAt := now + 10 * 60 * 1000, isUsed := false }

/-- The `findOne` filter used by every verification:
`{ user, code, type, isUsed: false, expiresAt: { $gt: new Date() } }`. -/
def codeMatches (r : CodeRecord) (u : Nat) (c : String) (t : CodeType) (now : Nat) : Bool :=
  decide (r.user = u) && decide (r.code = c) && decide (r.type = t) &&
    decide (r.isUsed = false) && decide (now < r.expiresAt)

/-- Index of the first document satisfying the verification filter
(mongoose `findOne` in natural order). -/
def findCode? (codes : List CodeRecord) (u : Nat) (c : String) (t : CodeType)
    (now : Nat) : Option Nat :=
  match codes with
  | [] => none
  | r :: rest =>
    if codeMatches r u c t now then some 0
    else (findCode? rest u c t now).map (· + 1)

/-- Source `twoFactorRecord.isUsed = true; await twoFactorRecord.save()`:
write back the fetched document with its used flag set. -/
def markUsed : List CodeRecord → Nat → List CodeRecord
  | [], _ => []
  | r :: rest, 0 => { r with isUsed := true } :: rest
  | r :: rest, i + 1 => r :: markUsed rest i

/-- One whole verification request run without interference: the
`findOne` (lines 94–100 of the auth routes) immediately followed by the
`save` (lines 107–108).  Returns whether the attempt succeeded and the
resulting code store. -/
def verifyCode (codes : List CodeRecord) (u : Nat) (c : String) (t : CodeType)
    (now : Nat) : Bool × List CodeRecord :=
  match findCode? codes u c t now with
  | some i => (true, markUsed codes i)
  | none => (false, codes)

/-- Two concurrent verification requests for the same (user, code, type),
interleaved so that both `findOne` reads happen before either `save`
write — an interleaving the database permits because the handler performs
a read (`findOne`) and then a separate write (`save`), not one atomic
conditional update.  Returns (request A succeeded, request B succeeded,
final store). -/
def raceBothReads (codes : List CodeRecord) (u : Nat) (c : String) (t : CodeType)
    (now : Nat) : Bool × Bool × List CodeRecord :=
  let i1 := findCode? codes u c t now
  let i2 := findCode? codes u c t now
  let s1 := match i1 with
    | some i => markUsed codes i
    | none => codes
  let s2 := match i2 with
    | some i => markUsed s1 i
    | none => s1
  (i1.isSome, i2.isSome, s2)

/-- A signed session token (`generateToken`: `jwt.sign({id}, secret, {expiresIn:'30d'})`).
The signature itself is external; the payload binds the account id and the
30-day validity window. -/
structure Token where
  id : Nat
  expiresInDays : Nat
deriving DecidableEq, Repr

/-- Source `generateToken(id)` from the auth middleware. -/
def generateToken (id : Nat) : Token :=
  { id := id, expiresInDays := 30 }

/-- The JSON bodies the embedded handlers produce. -/
inductive Body where
  /-- Body `{ message }` -/
  | msg (message : String)
  /-- Body `{ requiresTwoFactor: true, message }` -/
  | stepUp (message : String)
  /-- The login success payload `{_id, name, email, role, permissions, twoFactorEnabled, token}`. -/
  | loginUser (id : Nat) (name : String) (email : String) (role : Role)
      (permissions : List String) (twoFactorEnabled : Bool) (token : Token)
  /-- Body `{ message, required, userRole }` from `requirePermission`. -/
  | forbidden (message : String) (required : String) (userRole : Role)
  /-- Body `{ message, required, userRole }` from `requireRole` (required is a role list). -/
  | forbiddenRole (message : String) (required : List Role) (userRole : Role)
  /-- A user document returned as the response body (password field excluded). -/
  | userDoc (u : User)
deriving DecidableEq, Repr

/-- An HTTP response: status code plus JSON body. -/
structure Resp where
  status : Nat
  body : Body
deriving DecidableEq, Repr

/-- JS truthiness of an optional request string: absent (`undefined`) and
the empty string are falsy. -/
def truthy : Option String → Bool
  | none => false
  | some s => !(s == "")

/-- Source `User.findOne({ email })`: first account whose email equals the request value. -/
def findUserByEmail (users : List User) (e : Option String) : Option User :=
  users.find? (fun u => decide (some u.email = e))

/-- Source `User.findById(id)`. -/
def findById (users : List User) (i : Nat) : Option User :=
  users.find? (fun u => decide (u.id = i))

/-- Source `user.lastLogin = new Date(); await user.save()`. -/
def updateLastLogin (users : List User) (uid : Nat) (now : Nat) : List User :=
  users.map (fun u => if u.id = uid then { u with lastLogin := some now } else u)

/-- The 200 success payload of `POST /api/auth/login` (lines 116–124). -/
def loginSuccess (user : User) : Resp :=
  ⟨200, .loginUser user.id user.name user.email user.role user.permissions
    user.twoFactorEnabled (generateToken user.id)⟩

/-- The request body of `POST /api/auth/login`. -/
structure LoginRequest where
  email : Option String
  password : Option String
  twoFactorCode : Option String
deriving DecidableEq, Repr

/-- Route `POST /api/auth/login` (auth routes lines 61–132), run without
interference.  `matchPw` abstracts bcrypt's `user.matchPassword(password)`
(supplied password against stored hash); `rand` is the random draw consumed
when a fresh code must be generated.  Returns the response together with the
resulting user and code stores. -/
def login (matchPw : String → String → Bool) (req : LoginRequest)
    (users : List User) (codes : List CodeRecord) (now : Nat) (rand : Nat) :
    Resp × List User × List CodeRecord :=
  if !(truthy req.email && truthy req.password) then
    (⟨400, .msg "Please provide email and password"⟩, users, codes)
  else
    match findUserByEmail users req.email with
    | none => (⟨401, .msg "Invalid email or password"⟩, users, codes)
    | some user =>
      if !(matchPw (req.password.getD "") user.password) then
        (⟨401, .msg "Invalid email or password"⟩, users, codes)
      else if user.twoFactorEnabled then
        if !(truthy req.twoFactorCode) then
          let code := toString (generateTwoFactorCode rand)
          (⟨200, .stepUp "Two-factor authentication code sent to your email"⟩,
            users, codes ++ [createTwoFactorAuth user.id code CodeType.login now])
        else
          match findCode? codes user.id (req.twoFactorCode.getD "") CodeType.login now with
          | none => (⟨400, .msg "Invalid or expired verification code"⟩, users, codes)
          | some i =>
            (loginSuccess user, updateLastLogin users user.id now, markUsed codes i)
      else
        (loginSuccess user, updateLastLogin users user.id now, codes)

/-- The static role→permissions table inside `requirePermission`
(backend/middleware/auth.js lines 49–79).  The source's
`rolePermissions[user.role] || []` fallback is unreachable because the role
enum is closed. -/
def rolePermissions : Role → List String
  | .user =>
    ["inventory:read", "inventory:write", "waste:read", "waste:write"]
  | .manager =>
    ["inventory:read", "inventory:write", "inventory:delete", "waste:read",
      "waste:write", "waste:delete", "analytics:read", "users:read"]
  | .admin =>
    ["inventory:read", "inventory:write", "inventory:delete", "waste:read",
      "waste:write", "waste:delete", "analytics:read", "users:read",
      "users:write", "users:delete", "settings:write"]

/-- Outcome of a middleware: pass control on (`next()`) or answer directly. -/
inductive MWResult where
  | next
  | response (r : Resp)
deriving DecidableEq, Repr

/-- Middleware `requirePermission(permission)` (backend/middleware/auth.js lines 36–99):
`reqUser` is `req.user` as set by `protect` (absent when unauthenticated). -/
def requirePermission (permission : String) (reqUser : Option Nat)
    (users : List User) : MWResult :=
  match reqUser with
  | none => .response ⟨401, .msg "Authentication required"⟩
  | some uid =>
    match findById users uid with
    | none => .response ⟨401, .msg "User not found"⟩
    | some user =>
      let userRolePermissions := rolePermissions user.role
      let hasRolePermission := userRolePermissions.contains permission
      let hasCustomPermission := user.permissions.contains permission
      if !hasRolePermission && !hasCustomPermission then
        .response ⟨403, .forbidden "Insufficient permissions" permission user.role⟩
      else
        .next

/-- Middleware `requireRole(roles)` (backend/routes/users.js lines 9–36), already
normalised to a role list. -/
def requireRole (roles : List Role) (reqUser : Option Nat)
    (users : List User) : MWResult :=
  match reqUser with
  | none => .response ⟨401, .msg "Authentication required"⟩
  | some uid =>
    match findById users uid with
    | none => .response ⟨401, .msg "User not found"⟩
    | some user =>
      if !(roles.contains user.role) then
        .response ⟨403, .forbiddenRole "Insufficient role permissions" roles user.role⟩
      else
        .next

/-- Source `validRoles` of the user routes. -/
def validRoles : List String := ["user", "manager", "admin"]

/-- Interpret a valid role string as a role value. -/
def parseRole : String → Option Role
  | "user" => some .user
  | "manager" => some .manager
  | "admin" => some .admin
  | _ => none

/-- Build the `updateData` document and apply it to the target:
`if (role) updateData.role = role; if (permissions) updateData.permissions
= permissions` (JS truthiness: an absent or empty role string updates
nothing; a permissions array, even empty, is truthy when present). -/
def applyRoleUpdate (role? : Option String) (perms? : Option (List String))
    (u : User) : User :=
  let u1 :=
    if truthy role? then
      match parseRole (role?.getD "") with
      | some ro => { u with role := ro }
      | none => u
    else u
  match perms? with
  | some ps => { u1 with permissions := ps }
  | none => u1

/-- Route `PUT /api/users/:id/role` (backend/routes/users.js lines 126–159),
behind `requireRole('admin')`.  `reqUid` is the authenticated caller,
`targetId` the `:id` path parameter. -/
def updateUserRole (reqUid targetId : Nat) (role? : Option String)
    (perms? : Option (List String)) (users : List User) : Resp × List User :=
  match requireRole [Role.admin] (some reqUid) users with
  | .response r => (r, users)
  | .next =>
    if truthy role? && !(validRoles.contains (role?.getD "")) then
      (⟨400, .msg "Invalid role"⟩, users)
    else if decide (targetId = reqUid) && truthy role? &&
        !(role?.getD "" == "admin") then
      (⟨400, .msg "Cannot change your own admin role"⟩, users)
    else
      match findById users targetId with
      | none => (⟨404, .msg "User not found"⟩, users)
      | some u =>
        let u2 := applyRoleUpdate role? perms? u
        (⟨200, .userDoc u2⟩, users.map (fun x => if x.id = targetId then u2 else x))

/-- Route `DELETE /api/users/:id` (backend/routes/users.js lines 164–182),
behind `requireRole('admin')`. -/
def deleteUser (reqUid targetId : Nat) (users : List User) : Resp × List User :=
  match requireRole [Role.admin] (some reqUid) users with
  | .response r => (r, users)
  | .next =>
    if decide (targetId = reqUid) then
      (⟨400, .msg "Cannot delete your own account"⟩, users)
    else
      match findById users targetId with
      | none => (⟨404, .msg "User not found"⟩, users)
      | some _ =>
        (⟨200, .msg "User deleted successfully"⟩,
          users.filter (fun u => !(decide (u.id = targetId))))

/-! ### Concrete fixtures used to evaluate the development on closed inputs -/

/-- A concrete bcrypt stand-in for closed evaluations: plain equality of the
supplied password and the stored hash. -/
def matchPwEq (p h : String) : Bool := p == h

/-- A concrete account with 2FA enabled, used to evaluate the handlers. -/
def aliceUser : User :=
  { id := 0, name := "Alice", email := "alice@example.com", password := "pw1",
    role := Role.admin, permissions := ["reports:read"], twoFactorEnabled := true,
    lastLogin := none }

/-- A one-account store holding `aliceUser`. -/
def usersW : List User := [aliceUser]

/-- A single valid, unused login code for account 0, expiring at time 100. -/
def raceStore : List CodeRecord :=
  [{ user := 0, code := "123456", expiresAt := 100, isUsed := false, type := CodeType.login }]

/-- Two coexisting unused, unexpired login codes for account 0 that happen to
carry the same six digits. -/
def dupStore : List CodeRecord :=
  [{ user := 0, code := "123456", expiresAt := 100, isUsed := false, type := CodeType.login },
   { user := 0, code := "123456", expiresAt := 100, isUsed := false, type := CodeType.login }]

/-! ### Basic facts about code generation -/

theorem generateTwoFactorCode_lb (r : Nat) : 100000 ≤ generateTwoFactorCode r := by
  simp [generateTwoFactorCode, randomInt]

theorem generateTwoFactorCode_ub (r : Nat) : generateTwoFactorCode r ≤ 999998 := by
  have h : r % 899999 < 899999 := Nat.mod_lt _ (by norm_num)
  simp only [generateTwoFactorCode, randomInt]
  omega

/-! ### Helper lemmas about the code-store operations -/

theorem codeMatches_mono {r : CodeRecord} {u : Nat} {c : String} {t : CodeType}
    {now now' : Nat} (hle : now ≤ now')
    (h : codeMatches r u c t now' = true) : codeMatches r u c t now = true := by
  simp only [codeMatches, Bool.and_eq_true, decide_eq_true_eq] at h ⊢
  refine ⟨⟨⟨⟨h.1.1.1.1, h.1.1.1.2⟩, h.1.1.2⟩, h.1.2⟩, ?_⟩
  omega

theorem codeMatches_of_used {r : CodeRecord} (hu : r.isUsed = true)
    (u : Nat) (c : String) (t : CodeType) (now : Nat) :
    codeMatches r u c t now = false := by
  simp [codeMatches, hu]

theorem findCode?_none (codes : List CodeRecord) (u : Nat) (c : String)
    (t : CodeType) (now : Nat)
    (h : ∀ j r, codes.get? j = some r → codeMatches r u c t now = false) :
    findCode? codes u c t now = none := by
  induction codes with
  | nil => rfl
  | cons a l ih =>
    have h0 : codeMatches a u c t now = false := h 0 a rfl
    rw [findCode?, if_neg (by simp [h0])]
    rw [ih (fun j r hg => h (j + 1) r hg)]
    rfl

theorem findCode?_spec {codes : List CodeRecord} {u : Nat} {c : String}
    {t : CodeType} {now i : Nat} (h : findCode? codes u c t now = some i) :
    ∃ r, codes.get? i = some r ∧ codeMatches r u c t now = true := by
  induction codes generalizing i with
  | nil => simp [findCode?] at h
  | cons a l ih =>
    rw [findCode?] at h
    by_cases hm : codeMatches a u c t now = true
    · rw [if_pos hm] at h
      cases h
      exact ⟨a, rfl, hm⟩
    · rw [if_neg hm] at h
      cases hfl : findCode? l u c t now with
      | none => rw [hfl] at h; simp at h
      | some j =>
        rw [hfl] at h
        simp only [Option.map_some', Option.some.injEq] at h
        obtain ⟨r, hg, hr⟩ := ih hfl
        exact h ▸ ⟨r, hg, hr⟩

theorem markUsed_get_eq {codes : List CodeRecord} {i : Nat} {r : CodeRecord}
    (h : codes.get? i = some r) :
    (markUsed codes i).get? i = some { r with isUsed := true } := by
  induction codes generalizing i with
  | nil => simp at h
  | cons a l ih =>
    cases i with
    | zero => cases h; rfl
    | succ j => exact ih h

theorem markUsed_get_ne {codes : List CodeRecord} {i j : Nat} (hne : j ≠ i) :
    (markUsed codes i).get? j = codes.get? j := by
  induction codes generalizing i j with
  | nil => rfl
  | cons a l ih =>
    cases i with
    | zero =>
      cases j with
      | zero => exact absurd rfl hne
      | succ k => rfl
    | succ i' =>
      cases j with
      | zero => rfl
      | succ k => exact ih (by omega)

/-! ### Claim C1 — range of the generated one-time codes -/

/-- C1 (counterexample): the value 999999 claimed attainable is in fact never
generated — `crypto.randomInt(100000, 999999)` excludes its upper bound, so no
random draw yields 999999. -/
theorem generateTwoFactorCode_never_999999 :
    ¬ ∃ r : Nat, generateTwoFactorCode r = 999999 := by
  rintro ⟨r, hr⟩
  have h := generateTwoFactorCode_ub r
  omega

/-- C1 (amended): every generated one-time code is a 6-digit decimal number in
the inclusive range [100000, 999998] (the upper argument of
`crypto.randomInt` is exclusive), and both endpoints of that range are
attainable for some random draw. -/
theorem generateTwoFactorCode_range :
    (∀ r : Nat, 100000 ≤ generateTwoFactorCode r ∧ generateTwoFactorCode r ≤ 999998) ∧
    (∃ r : Nat, generateTwoFactorCode r = 100000) ∧
    (∃ r : Nat, generateTwoFactorCode r = 999998) := by
  refine ⟨fun r => ⟨generateTwoFactorCode_lb r, generateTwoFactorCode_ub r⟩, ⟨0, ?_⟩, ⟨899998, ?_⟩⟩
  · decide
  · decide

/-! ### Claim C2 — verification is read-then-write, so a code can be consumed
twice under a race -/

/-- C2 (failing execution): the handler performs `findOne` and then a separate
`save`, not an atomic conditional update.  In the interleaving where both
concurrent requests run their `findOne` before either `save`, both attempts
find the single valid code of `raceStore` and both succeed — contradicting
"exactly one attempt succeeds". -/
theorem race_double_consume :
    raceBothReads raceStore 0 "123456" CodeType.login 50 =
      (true, true,
        [{ user := 0, code := "123456", expiresAt := 100, isUsed := true,
           type := CodeType.login }]) := by
  decide

/-! ### Claim C3 — single use of a consumed code -/

/-- C3 (counterexample): two unused, unexpired records carrying the same six
digits may coexist (codes are random, and several outstanding codes of the
same type are allowed).  After one successful verification of "123456" in
`dupStore`, resubmitting the very same code for the same (account, type)
succeeds again by matching the second record — the claim's "any later
verification attempt submitting the same code fails" is false as stated. -/
theorem code_reuse_counterexample :
    (verifyCode dupStore 0 "123456" CodeType.login 50).1 = true ∧
    (verifyCode (verifyCode dupStore 0 "123456" CodeType.login 50).2
      0 "123456" CodeType.login 50).1 = true := by
  decide

/-- C3 (amended): after a verification succeeds for a code record, that record
has `isUsed = true`, and any later verification attempt (at any time not
earlier than the first) submitting the same code for the same (account, type)
fails, provided the consumed record was the only unused, unexpired record
matching that (account, code, type). -/
theorem single_use_of_unique_match (codes : List CodeRecord) (u : Nat)
    (c : String) (t : CodeType) (now now' i : Nat)
    (hle : now ≤ now')
    (hfind : findCode? codes u c t now = some i)
    (huniq : ∀ j r, codes.get? j = some r → codeMatches r u c t now = true → j = i) :
    (verifyCode codes u c t now).1 = true ∧
    (∃ q, (verifyCode codes u c t now).2.get? i = some q ∧ q.isUsed = true) ∧
    (verifyCode (verifyCode codes u c t now).2 u c t now').1 = false := by
  obtain ⟨r0, hg0, hm0⟩ := findCode?_spec hfind
  have hv : verifyCode codes u c t now = (true, markUsed codes i) := by
    rw [verifyCode, hfind]
  refine ⟨by rw [hv], ⟨{ r0 with isUsed := true }, by rw [hv]; exact markUsed_get_eq hg0, rfl⟩, ?_⟩
  rw [hv]
  have hnone : findCode? (markUsed codes i) u c t now' = none := by
    apply findCode?_none
    intro j r hg
    by_cases hji : j = i
    · subst hji
      rw [markUsed_get_eq hg0] at hg
      cases hg
      exact codeMatches_of_used rfl u c t now'
    · rw [markUsed_get_ne hji] at hg
      by_contra hmm
      have hm' : codeMatches r u c t now' = true := by
        cases hmc : codeMatches r u c t now' with
        | true => rfl
        | false => exact absurd hmc hmm
      exact hji (huniq j r hg (codeMatches_mono hle hm'))
  rw [verifyCode, hnone]

/-- C3 (witness): the amended theorem evaluated on the one-record store
`raceStore`: the first verification succeeds and marks the record used, and a
resubmission of the same code fails. -/
theorem single_use_of_unique_match_witness :
    (verifyCode raceStore 0 "123456" CodeType.login 50).1 = true ∧
    (∃ q, (verifyCode raceStore 0 "123456" CodeType.login 50).2.get? 0 = some q ∧
      q.isUsed = true) ∧
    (verifyCode (verifyCode raceStore 0 "123456" CodeType.login 50).2
      0 "123456" CodeType.login 50).1 = false := by
  refine single_use_of_unique_match raceStore 0 "123456" CodeType.login 50 50 0
    le_rfl (by decide) ?_
  intro j r hg hm
  match j with
  | 0 => rfl
  | j + 1 => simp [raceStore, List.get?] at hg

/-! ### Claim C9 — validation happens before any account lookup -/

/-- C9: a login request with a missing or empty email or password yields the
400 validation response, and the result is the same constant for every
account store and code store — no lookup against either store can influence
it, and both stores are returned unchanged. -/
theorem login_validation_before_lookup (matchPw : String → String → Bool)
    (req : LoginRequest) (users : List User) (codes : List CodeRecord)
    (now rand : Nat)
    (h : truthy req.email = false ∨ truthy req.password = false) :
    login matchPw req users codes now rand =
      (⟨400, .msg "Please provide email and password"⟩, users, codes) := by
  rw [login]
  rcases h with h | h <;> simp [h]

/-- C9 (witness): a request with no email is rejected with the validation
response on a concrete store. -/
theorem login_validation_before_lookup_witness :
    login matchPwEq ⟨none, some "pw1", none⟩ usersW raceStore 50 0 =
      (⟨400, .msg "Please provide email and password"⟩, usersW, raceStore) :=
  login_validation_before_lookup matchPwEq ⟨none, some "pw1", none⟩ usersW raceStore
    50 0 (Or.inl rfl)

/-! ### Claim C5 — unknown email and wrong password are indistinguishable -/

/-- C5: when no account matches the supplied email, and when an account
matches but the password check fails, the login handler returns the very same
response — status 401 with body "Invalid email or password" — and leaves both
stores unchanged, so an observer cannot tell which of the two caused the
rejection. -/
theorem login_credential_failure_indistinguishable
    (matchPw : String → String → Bool) (req : LoginRequest)
    (users : List User) (codes : List CodeRecord) (now rand : Nat)
    (he : truthy req.email = true) (hp : truthy req.password = true) :
    (findUserByEmail users req.email = none →
      login matchPw req users codes now rand =
        (⟨401, .msg "Invalid email or password"⟩, users, codes)) ∧
    (∀ user, findUserByEmail users req.email = some user →
      matchPw (req.password.getD "") user.password = false →
      login matchPw req users codes now rand =
        (⟨401, .msg "Invalid email or password"⟩, users, codes)) := by
  constructor
  · intro hn
    rw [login]
    simp [he, hp, hn]
  · intro user hu hpw
    rw [login]
    simp [he, hp, hu, hpw]

/-- C5 (witness): on a concrete store, the unknown-email rejection and the
wrong-password rejection are the identical response. -/
theorem login_credential_failure_indistinguishable_witness :
    login matchPwEq ⟨some "bob@example.com", some "pw1", none⟩ usersW raceStore 50 0 =
      (⟨401, .msg "Invalid email or password"⟩, usersW, raceStore) ∧
    login matchPwEq ⟨some "alice@example.com", some "wrong", none⟩ usersW raceStore 50 0 =
      (⟨401, .msg "Invalid email or password"⟩, usersW, raceStore) := by
  constructor
  · exact (login_credential_failure_indistinguishable matchPwEq
      ⟨some "bob@example.com", some "pw1", none⟩ usersW raceStore 50 0
      (by decide) (by decide)).1 (by decide)
  · exact (login_credential_failure_indistinguishable matchPwEq
      ⟨some "alice@example.com", some "wrong", none⟩ usersW raceStore 50 0
      (by decide) (by decide)).2 aliceUser (by decide) (by decide)

/-! ### Claim C10 — a failed 2FA verification changes nothing -/

/-- C10: when the account's 2FA is enabled, a code was supplied, and the code
lookup fails, the login handler returns the 400 invalid-code response with the
user store returned exactly as it was (no `lastLogin` update), the code store
exactly as it was (no record modified), and a body that carries no session
token. -/
theorem login_2fa_failure_preserves_state
    (matchPw : String → String → Bool) (req : LoginRequest)
    (users : List User) (codes : List CodeRecord) (now rand : Nat) (user : User)
    (he : truthy req.email = true) (hp : truthy req.password = true)
    (hu : findUserByEmail users req.email = some user)
    (hpw : matchPw (req.password.getD "") user.password = true)
    (h2fa : user.twoFactorEnabled = true)
    (hc : truthy req.twoFactorCode = true)
    (hfind : findCode? codes user.id (req.twoFactorCode.getD "")
      CodeType.login now = none) :
    login matchPw req users codes now rand =
      (⟨400, .msg "Invalid or expired verification code"⟩, users, codes) := by
  rw [login]
  simp [he, hp, hu, hpw, h2fa, hc, hfind]

/-- C10 (witness): submitting a wrong six-digit string on a concrete store
returns the invalid-code response and both stores unchanged. -/
theorem login_2fa_failure_preserves_state_witness :
    login matchPwEq ⟨some "alice@example.com", some "pw1", some "999999"⟩
        usersW raceStore 50 0 =
      (⟨400, .msg "Invalid or expired verification code"⟩, usersW, raceStore) :=
  login_2fa_failure_preserves_state matchPwEq
    ⟨some "alice@example.com", some "pw1", some "999999"⟩ usersW raceStore 50 0
    aliceUser (by decide) (by decide) (by decide) (by decide) (by decide)
    (by decide) (by decide)

/-! ### Claim C4 — expired codes never verify; fresh records have the schema
defaults -/

/-- C4: a freshly created code record has `isUsed = false` and `expiresAt`
equal to its creation time plus exactly 10 minutes; and a login verification
attempt whose submitted code only corresponds to records with
`expiresAt ≤ now` (regardless of their `isUsed` flag) fails with the 400
invalid-or-expired response, leaving both stores unchanged. -/
theorem code_expiry_and_fresh_defaults :
    (∀ (u : Nat) (c : String) (t : CodeType) (now : Nat),
      (createTwoFactorAuth u c t now).isUsed = false ∧
      (createTwoFactorAuth u c t now).expiresAt = now + 10 * 60 * 1000) ∧
    (∀ (matchPw : String → String → Bool) (req : LoginRequest)
        (users : List User) (codes : List CodeRecord) (now rand : Nat)
        (user : User),
      truthy req.email = true → truthy req.password = true →
      findUserByEmail users req.email = some user →
      matchPw (req.password.getD "") user.password = true →
      user.twoFactorEnabled = true →
      truthy req.twoFactorCode = true →
      (∀ r ∈ codes, r.user = user.id → r.code = req.twoFactorCode.getD "" →
        r.type = CodeType.login → r.expiresAt ≤ now) →
      login matchPw req users codes now rand =
        (⟨400, .msg "Invalid or expired verification code"⟩, users, codes)) := by
  constructor
  · intro u c t now
    exact ⟨rfl, rfl⟩
  · intro matchPw req users codes now rand user he hp hu hpw h2fa hc hexp
    have hfind : findCode? codes user.id (req.twoFactorCode.getD "")
        CodeType.login now = none := by
      apply findCode?_none
      intro j r hg
      cases hmc : codeMatches r user.id (req.twoFactorCode.getD "")
          CodeType.login now with
      | false => rfl
      | true =>
        simp only [codeMatches, Bool.and_eq_true, decide_eq_true_eq] at hmc
        exact absurd
          (hexp r (List.mem_iff_get?.mpr ⟨j, hg⟩) hmc.1.1.1.1 hmc.1.1.1.2 hmc.1.1.2)
          (by omega)
    rw [login]
    simp [he, hp, hu, hpw, h2fa, hc, hfind]

/-- C4 (witness): the defaults evaluated at a concrete creation, and a code
expired at time 100 rejected when submitted at time 200. -/
theorem code_expiry_and_fresh_defaults_witness :
    ((createTwoFactorAuth 0 "123456" CodeType.login 7).isUsed = false ∧
      (createTwoFactorAuth 0 "123456" CodeType.login 7).expiresAt = 7 + 10 * 60 * 1000) ∧
    login matchPwEq ⟨some "alice@example.com", some "pw1", some "123456"⟩
        usersW raceStore 200 0 =
      (⟨400, .msg "Invalid or expired verification code"⟩, usersW, raceStore) :=
  ⟨code_expiry_and_fresh_defaults.1 0 "123456" CodeType.login 7,
    code_expiry_and_fresh_defaults.2 matchPwEq
      ⟨some "alice@example.com", some "pw1", some "123456"⟩ usersW raceStore 200 0
      aliceUser (by decide) (by decide) (by decide) (by decide) (by decide)
      (by decide) (by decide)⟩

/-! ### Claim C6 — the permission check decides membership in the effective
permission set -/

/-- C6: for an authenticated account found in the store, `requirePermission`
passes control on exactly when the required permission belongs to the union of
the role-derived permissions and the account's custom permissions; in every
other case it answers 403 with a body carrying the required permission and the
account's actual role. -/
theorem requirePermission_correct (permission : String) (uid : Nat)
    (users : List User) (user : User) (hu : findById users uid = some user) :
    (requirePermission permission (some uid) users = .next ↔
      (permission ∈ rolePermissions user.role ∨ permission ∈ user.permissions)) ∧
    (requirePermission permission (some uid) users = .next ∨
      requirePermission permission (some uid) users =
        .response ⟨403, .forbidden "Insufficient permissions" permission user.role⟩) := by
  have hmain : requirePermission permission (some uid) users =
      (if !(rolePermissions user.role).contains permission &&
          !user.permissions.contains permission then
        .response ⟨403, .forbidden "Insufficient permissions" permission user.role⟩
      else .next) := by
    rw [requirePermission, hu]
  constructor
  · rw [hmain]
    by_cases h1 : permission ∈ rolePermissions user.role
    · simp [h1]
    · by_cases h2 : permission ∈ user.permissions
      · simp [h1, h2]
      · simp [h1, h2]
  · rw [hmain]
    by_cases hc : (!(rolePermissions user.role).contains permission &&
        !user.permissions.contains permission) = true
    · right
      rw [if_pos hc]
    · left
      rw [if_neg hc]

/-- C6 (witness): the check evaluated on a concrete store — the admin account
holds `inventory:read` through its role table entry. -/
theorem requirePermission_correct_witness :
    requirePermission "inventory:read" (some 0) usersW = .next :=
  (requirePermission_correct "inventory:read" 0 usersW aliceUser (by decide)).1.mpr
    (Or.inl (by decide))

/-! ### Claim C7 — the role table is monotone and custom grants always apply -/

/-- C7: the manager permission set is exactly the user set plus the four
manager-only additions, the admin set is exactly the manager set plus the
three admin-only additions, and a custom permission held by an account passes
`requirePermission` whatever the account's role. -/
theorem rolePermissions_monotone :
    (∀ p : String, p ∈ rolePermissions Role.manager ↔
      (p ∈ rolePermissions Role.user ∨
        p ∈ ["inventory:delete", "waste:delete", "analytics:read", "users:read"])) ∧
    (∀ p : String, p ∈ rolePermissions Role.admin ↔
      (p ∈ rolePermissions Role.manager ∨
        p ∈ ["users:write", "users:delete", "settings:write"])) ∧
    (∀ (users : List User) (uid : Nat) (user : User) (p : String),
      findById users uid = some user → p ∈ user.permissions →
      requirePermission p (some uid) users = .next) := by
  refine ⟨?_, ?_, ?_⟩
  · intro p
    simp [rolePermissions]
    tauto
  · intro p
    simp [rolePermissions]
    tauto
  · intro users uid user p hu hp
    rw [requirePermission, hu]
    have hc : user.permissions.contains p = true := by simp [hp]
    simp [hc]
    exact fun _ => hp

/-- C7 (witness): the custom grant `reports:read`, outside every role set, is
effective for a concrete account. -/
theorem rolePermissions_monotone_witness :
    requirePermission "reports:read" (some 0) usersW = .next :=
  rolePermissions_monotone.2.2 usersW 0 aliceUser "reports:read" (by decide) (by decide)

/-! ### Claim C8 — self-protection on role update and delete -/

theorem requireRole_response_status {roles : List Role} {ou : Option Nat}
    {users : List User} {resp : Resp}
    (h : requireRole roles ou users = .response resp) :
    resp.status = 401 ∨ resp.status = 403 := by
  cases ou with
  | none =>
    rw [requireRole] at h
    injection h with h2
    rw [← h2]
    left
    rfl
  | some uid =>
    rw [requireRole] at h
    cases hf : findById users uid with
    | none =>
      rw [hf] at h
      injection h with h2
      rw [← h2]
      left
      rfl
    | some user =>
      simp only [hf] at h
      split at h
      · injection h with h2
        subst h2
        right
        rfl
      · exact absurd h (by simp)

/-- C8: a role-update request targeting the caller's own account with a
non-empty role value other than "admin" is answered with an error status
(400 when the caller is an authenticated admin, 401/403 otherwise) and the
user store is returned unchanged; and a delete request targeting the caller's
own id is likewise answered with an error status and the user store is
returned unchanged — no self-demotion and no self-deletion is possible. -/
theorem self_protection (reqUid : Nat) (role? : Option String)
    (perms? : Option (List String)) (users : List User) :
    (∀ r, role? = some r → r ≠ "" → r ≠ "admin" →
      ((updateUserRole reqUid reqUid role? perms? users).2 = users ∧
        ((updateUserRole reqUid reqUid role? perms? users).1.status = 400 ∨
          (updateUserRole reqUid reqUid role? perms? users).1.status = 401 ∨
          (updateUserRole reqUid reqUid role? perms? users).1.status = 403))) ∧
    ((deleteUser reqUid reqUid users).2 = users ∧
      ((deleteUser reqUid reqUid users).1.status = 400 ∨
        (deleteUser reqUid reqUid users).1.status = 401 ∨
        (deleteUser reqUid reqUid users).1.status = 403)) := by
  constructor
  · intro r hr hne hnadmin
    subst hr
    cases hrr : requireRole [Role.admin] (some reqUid) users with
    | response resp =>
      have hupd : updateUserRole reqUid reqUid (some r) perms? users = (resp, users) := by
        rw [updateUserRole, hrr]
      rw [hupd]
      refine ⟨rfl, ?_⟩
      rcases requireRole_response_status hrr with h | h
      · right
        left
        exact h
      · right
        right
        exact h
    | next =>
      by_cases hv : r ∈ validRoles
      · have hupd : updateUserRole reqUid reqUid (some r) perms? users =
            (⟨400, .msg "Cannot change your own admin role"⟩, users) := by
          rw [updateUserRole, hrr]
          simp [truthy, hne, hnadmin, hv]
        rw [hupd]
        exact ⟨rfl, Or.inl rfl⟩
      · have hupd : updateUserRole reqUid reqUid (some r) perms? users =
            (⟨400, .msg "Invalid role"⟩, users) := by
          rw [updateUserRole, hrr]
          simp [truthy, hne, hv]
        rw [hupd]
        exact ⟨rfl, Or.inl rfl⟩
  · cases hrr : requireRole [Role.admin] (some reqUid) users with
    | response resp =>
      have hdel : deleteUser reqUid reqUid users = (resp, users) := by
        rw [deleteUser, hrr]
      rw [hdel]
      refine ⟨rfl, ?_⟩
      rcases requireRole_response_status hrr with h | h
      · right
        left
        exact h
      · right
        right
        exact h
    | next =>
      have hdel : deleteUser reqUid reqUid users =
          (⟨400, .msg "Cannot delete your own account"⟩, users) := by
        rw [deleteUser, hrr]
        simp
      rw [hdel]
      exact ⟨rfl, Or.inl rfl⟩

/-- C8 (witness): a concrete admin targeting itself — the demotion attempt and
the self-delete attempt both come back with an error status and an unchanged
store. -/
theorem self_protection_witness :
    ((updateUserRole 0 0 (some "user") none usersW).2 = usersW ∧
      ((updateUserRole 0 0 (some "user") none usersW).1.status = 400 ∨
        (updateUserRole 0 0 (some "user") none usersW).1.status = 401 ∨
        (updateUserRole 0 0 (some "user") none usersW).1.status = 403)) ∧
    ((deleteUser 0 0 usersW).2 = usersW ∧
      ((deleteUser 0 0 usersW).1.status = 400 ∨
        (deleteUser 0 0 usersW).1.status = 401 ∨
        (deleteUser 0 0 usersW).1.status = 403)) :=
  ⟨(self_protection 0 (some "user") none usersW).1 "user" rfl (by decide) (by decide),
    (self_protection 0 (some "user") none usersW).2⟩

end WasteWise
